import Mathlib

/-!
Verification of the playlist-matcher genre-matching engine
(`src/matching/genre-matcher.ts` and `SpotifyClient.addTracksToPlaylist`).

Numbers computed by the JavaScript source are modelled as real numbers
(`ℝ`), with `Math.log10` as `Real.logb 10`, `Math.round(x*100)/100` as
`⌊x*100 + 1/2⌋/100`, JS `Set` as `Finset String`, and JS `Map` (whose
iteration order is key-insertion order) as an association list.
Provider I/O (the Spotify client) is modelled by passing the fetched data
and per-call outcomes as explicit arguments; the list of add-to-playlist
invocations performed is returned alongside the result as a call trace.
-/

namespace PlaylistMatcher

/-- An artist reference as embedded in a Spotify track object. -/
structure ArtistRef where
  id : String
  name : String
deriving DecidableEq, Repr

/-- `SpotifyTrack` (the fields used by the matcher).  `popularity` is an
`Option` because the source guards it with `track.popularity || 0`;
`imageUrl` models `track.album?.images?.[0]?.url`. -/
structure SpotifyTrack where
  id : String
  name : String
  uri : String
  artists : List ArtistRef
  popularity : Option ℝ
  imageUrl : Option String

/-- `SpotifyArtist` (the fields used by the matcher). -/
structure SpotifyArtist where
  id : String
  name : String
  genres : List String
deriving DecidableEq, Repr

/-- `TrackWithGenres`: a liked song enriched with genre data. -/
structure TrackWithGenres where
  id : String
  uri : String
  name : String
  artistIds : List String
  artistNames : List String
  genres : List String
  popularity : ℝ
  imageUrl : Option String

/-- `PlaylistProfile`: aggregated summary of a playlist's sampled tracks.
The genre frequency table (a JS `Map<string, number>`) is an association
list in key-insertion order. -/
structure PlaylistProfile where
  playlistId : String
  playlistName : String
  trackCount : ℕ
  sampledCount : ℕ
  artistIds : Finset String
  artistNames : Finset String
  genres : List (String × ℕ)
  avgPopularity : ℝ

/-- The four-component score breakdown of `MatchResult`. -/
structure Breakdown where
  artistOverlap : ℝ
  genreOverlap : ℝ
  popularitySimilarity : ℝ
  weightedGenreScore : ℝ

/-- `MatchResult`: a (track, playlist) pair that cleared the threshold. -/
structure MatchResult where
  trackId : String
  trackUri : String
  trackName : String
  artistNames : String
  trackImageUrl : Option String
  trackGenres : List String
  playlistId : String
  playlistName : String
  score : ℝ
  breakdown : Breakdown

/-- An entry of the `unmatched` output list. -/
structure UnmatchedEntry where
  trackName : String
  artistNames : String
  reason : String
deriving DecidableEq, Repr

/-- An entry of `autoOrganize`'s `added` output list. -/
structure AddedEntry where
  playlistId : String
  playlistName : String
  tracks : List String
deriving DecidableEq, Repr

-- ============ SIMILARITY FUNCTIONS ============

/-- `jaccardSimilarity`: `|A ∩ B| / |A ∪ B|`, and `0` when both sets are
empty. -/
noncomputable def jaccardSimilarity (setA setB : Finset String) : ℝ :=
  if setA.card = 0 ∧ setB.card = 0 then 0
  else ((setA ∩ setB).card : ℝ) / ((setA ∪ setB).card : ℝ)

/-- `artistOverlapScore`: `0` when either side is empty or no artist
matches; otherwise `min 1 (matchCount/trackArtistCount + 0.5)`. -/
noncomputable def artistOverlapScore (trackArtistIds : List String)
    (playlistArtistIds : Finset String) : ℝ :=
  if trackArtistIds.length = 0 ∨ playlistArtistIds.card = 0 then 0
  else
    let matchingArtists := trackArtistIds.filter (fun id => id ∈ playlistArtistIds)
    if matchingArtists.length > 0 then
      min 1 ((matchingArtists.length : ℝ) / (trackArtistIds.length : ℝ) + 0.5)
    else 0

/-- `genreOverlapScore`: Jaccard similarity of the genre sets. -/
noncomputable def genreOverlapScore (trackGenres : List String)
    (playlistGenres : Finset String) : ℝ :=
  if trackGenres.length = 0 ∨ playlistGenres.card = 0 then 0
  else jaccardSimilarity trackGenres.toFinset playlistGenres

/-- The binding for genre `g` in the frequency table, like `Map.get`. -/
def lookupFreq (playlistGenreFreq : List (String × ℕ)) (g : String) : Option ℕ :=
  (playlistGenreFreq.find? (fun p => p.1 = g)).map Prod.snd

/-- `weightedGenreScore`: average of `freq/maxFreq` over the track's
genres, times the multiple-match bonus `1 + log10(matchCount + 1) / 2`. -/
noncomputable def weightedGenreScore (trackGenres : List String)
    (playlistGenreFreq : List (String × ℕ)) : ℝ :=
  if trackGenres.length = 0 ∨ playlistGenreFreq.length = 0 then 0
  else
    let maxFreq : ℕ := (playlistGenreFreq.map Prod.snd).foldl max 0
    if maxFreq = 0 then 0
    else
      let matched := trackGenres.filterMap (lookupFreq playlistGenreFreq)
      let totalScore : ℝ := (matched.map (fun (f : ℕ) => (f : ℝ) / (maxFreq : ℝ))).sum
      let matchCount := matched.length
      if matchCount = 0 then 0
      else (totalScore / (trackGenres.length : ℝ)) *
        (1 + Real.logb 10 ((matchCount : ℝ) + 1) / 2)

/-- `popularitySimilarity`: `max 0 (1 - |trackPop - playlistAvgPop| / 40)`. -/
noncomputable def popularitySimilarity (trackPopularity playlistAvgPopularity : ℝ) : ℝ :=
  max 0 (1 - |trackPopularity - playlistAvgPopularity| / 40)

-- ============ MAIN MATCHING FORMULA ============

/-- `Math.round(x * 100) / 100`: rounding to 2 decimal places (JS
`Math.round` rounds half toward `+∞`). -/
noncomputable def round2 (x : ℝ) : ℝ := (⌊x * 100 + 1 / 2⌋ : ℝ) / 100

/-- The genre keys of a profile's frequency table
(`new Set(playlist.genres.keys())`). -/
def genreKeys (playlistGenreFreq : List (String × ℕ)) : Finset String :=
  (playlistGenreFreq.map Prod.fst).toFinset

/-- `calculateMatchScore`: weighted combination of the four similarity
primitives, composite and breakdown each rounded to 2 decimal places. -/
noncomputable def calculateMatchScore (track : TrackWithGenres)
    (playlist : PlaylistProfile) : ℝ × Breakdown :=
  let artistScore := artistOverlapScore track.artistIds playlist.artistIds
  let genreScore := genreOverlapScore track.genres (genreKeys playlist.genres)
  let weightedGenre := weightedGenreScore track.genres playlist.genres
  let popSimilarity := popularitySimilarity track.popularity playlist.avgPopularity
  let score := artistScore * 0.35 + genreScore * 0.25 + weightedGenre * 0.25 +
    popSimilarity * 0.15
  (round2 score,
   { artistOverlap := round2 artistScore
     genreOverlap := round2 genreScore
     weightedGenreScore := round2 weightedGenre
     popularitySimilarity := round2 popSimilarity })

-- ============ GENRE MATCHER CLASS ============

/-- JS `[...new Set(l)]`: de-duplication keeping first occurrences. -/
def jsDedup (l : List String) : List String :=
  l.foldl (fun acc x => if x ∈ acc then acc else acc ++ [x]) []

/-- JS `join(", ")`. -/
def joinComma (l : List String) : String := String.intercalate ", " l

/-- `enrichTracksWithGenres`, with the fetched artist records passed in
(the source fetches them from the client and builds a lookup map). -/
noncomputable def enrichTracksWithGenres (artists : List SpotifyArtist)
    (tracks : List SpotifyTrack) : List TrackWithGenres :=
  tracks.map (fun track =>
    let trackArtists := track.artists.map (fun a => artists.find? (fun ar => ar.id = a.id))
    let allGenres := jsDedup (trackArtists.flatMap (fun a => (a.map SpotifyArtist.genres).getD []))
    { id := track.id
      uri := track.uri
      name := track.name
      artistIds := track.artists.map ArtistRef.id
      artistNames := track.artists.map ArtistRef.name
      genres := allGenres
      popularity := track.popularity.getD 0
      imageUrl := track.imageUrl })

/-- Playlist metadata used by `buildPlaylistProfile` (`getPlaylist`). -/
structure PlaylistMeta where
  name : String
  totalTracks : ℕ

/-- `buildPlaylistProfile` (cache-miss path), with the playlist metadata,
sampled tracks and fetched artist records passed in.  Throwing the
"has no tracks" error is modelled with `Except`. -/
noncomputable def buildPlaylistProfile (playlistId : String) (playlist : PlaylistMeta)
    (tracks : List SpotifyTrack) (artists : List SpotifyArtist) :
    Except String PlaylistProfile :=
  if tracks.length = 0 then
    .error ("Playlist \"" ++ playlist.name ++ "\" has no tracks")
  else
    let enrichedTracks := enrichTracksWithGenres artists tracks
    let artistIds := (enrichedTracks.flatMap TrackWithGenres.artistIds).toFinset
    let artistNames := (enrichedTracks.flatMap TrackWithGenres.artistNames).toFinset
    let genreFreq := enrichedTracks.foldl
      (fun freq track => track.genres.foldl
        (fun freq genre => freq.map (fun p => if p.1 = genre then (p.1, p.2 + 1) else p) ++
          (if (freq.map Prod.fst).contains genre then [] else [(genre, 1)]))
        freq) []
    let totalPopularity := (enrichedTracks.map TrackWithGenres.popularity).sum
    .ok
      { playlistId := playlistId
        playlistName := playlist.name
        trackCount := playlist.totalTracks
        sampledCount := enrichedTracks.length
        artistIds := artistIds
        artistNames := artistNames
        genres := genreFreq
        avgPopularity := totalPopularity / (enrichedTracks.length : ℝ) }

/-- The inner best-profile scan of `matchSongsToPlaylists`: fold over the
profiles keeping the best candidate whose score clears the threshold. -/
noncomputable def findBestMatch (song : TrackWithGenres) (similarityThreshold : ℝ) :
    Option (PlaylistProfile × ℝ × Breakdown) → List PlaylistProfile →
    Option (PlaylistProfile × ℝ × Breakdown)
  | best, [] => best
  | best, profile :: rest =>
      let r := calculateMatchScore song profile
      let best' :=
        if r.1 ≥ similarityThreshold then
          match best with
          | none => some (profile, r.1, r.2)
          | some b => if r.1 > b.2.1 then some (profile, r.1, r.2) else best
        else best
      findBestMatch song similarityThreshold best' rest

/-- JS `Math.max` over a (nonempty) list of scores. -/
noncomputable def listMax : List ℝ → ℝ
  | [] => 0
  | x :: xs => xs.foldl max x

/-- The per-song loop of `matchSongsToPlaylists`: each song becomes a
match for its best-scoring profile, or an unmatched entry.  The
"below threshold" reason string's number formatting is abstracted by the
`fmtBelow` parameter (applied to the best observed score and the
threshold). -/
noncomputable def matchLoop (playlistProfiles : List PlaylistProfile)
    (similarityThreshold : ℝ) (fmtBelow : ℝ → ℝ → String) :
    List TrackWithGenres → List MatchResult × List UnmatchedEntry
  | [] => ([], [])
  | song :: rest =>
      let tail := matchLoop playlistProfiles similarityThreshold fmtBelow rest
      match findBestMatch song similarityThreshold none playlistProfiles with
      | some (profile, score, breakdown) =>
          ({ trackId := song.id
             trackUri := song.uri
             trackName := song.name
             artistNames := joinComma song.artistNames
             trackImageUrl := song.imageUrl
             trackGenres := song.genres
             playlistId := profile.playlistId
             playlistName := profile.playlistName
             score := score
             breakdown := breakdown } :: tail.1, tail.2)
      | none =>
          (tail.1,
           { trackName := song.name
             artistNames := joinComma song.artistNames
             reason :=
               if song.genres.length = 0 then
                 "No genre data available for this track's artists"
               else
                 fmtBelow
                   (listMax (playlistProfiles.map (fun p => (calculateMatchScore song p).1)))
                   similarityThreshold } :: tail.2)

/-- Stable insertion (descending by score) modelling the final
`matches.sort((a, b) => b.score - a.score)` (JS sort is stable). -/
noncomputable def insertDesc (x : MatchResult) : List MatchResult → List MatchResult
  | [] => [x]
  | y :: ys => if x.score ≥ y.score then x :: y :: ys else y :: insertDesc x ys

/-- Stable sort of the matches by descending score. -/
noncomputable def sortByScoreDesc (l : List MatchResult) : List MatchResult :=
  l.foldr insertDesc []

/-- `matchSongsToPlaylists` after its fetch phase: takes the enriched
liked songs and the usable playlist profiles, returns the sorted matches
and the unmatched entries. -/
noncomputable def matchSongsToPlaylists (enrichedSongs : List TrackWithGenres)
    (playlistProfiles : List PlaylistProfile) (similarityThreshold : ℝ)
    (fmtBelow : ℝ → ℝ → String) : List MatchResult × List UnmatchedEntry :=
  if playlistProfiles.length = 0 then
    ([], enrichedSongs.map (fun s =>
      { trackName := s.name
        artistNames := joinComma s.artistNames
        reason := "No playlists available for matching" }))
  else
    let r := matchLoop playlistProfiles similarityThreshold fmtBelow enrichedSongs
    (sortByScoreDesc r.1, r.2)

-- ============ AUTO-ORGANIZE ============

/-- One step of grouping: JS `Map.set` on an association list — append to
the existing key's group, else add a new group at the end. -/
def updateGroup (m : MatchResult) :
    List (String × List MatchResult) → List (String × List MatchResult)
  | [] => [(m.playlistId, [m])]
  | (k, ms) :: rest =>
      if k = m.playlistId then (k, ms ++ [m]) :: rest
      else (k, ms) :: updateGroup m rest

/-- `autoOrganize`'s grouping of matches by destination playlist id
(JS `Map` iteration order is key-insertion order). -/
def groupByPlaylist (matchList : List MatchResult) : List (String × List MatchResult) :=
  matchList.foldl (fun acc m => updateGroup m acc) []

/-- The result record of `autoOrganize`. -/
structure AutoOrganizeResult where
  matches' : List MatchResult
  added : List AddedEntry
  unmatched : List UnmatchedEntry
  dryRun : Bool

/-- The apply-mode loop of `autoOrganize` over the grouped matches.  The
provider's per-playlist outcome is the `addOutcome` argument (`.error msg`
models a rejected bulk add whose caught message is `msg`).  Returns the
added entries, the unmatched entries pushed for failed playlists, and the
trace of `addTracksToPlaylist` calls made. -/
noncomputable def applyToPlaylists
    (addOutcome : String → List String → Except String Unit) :
    List (String × List MatchResult) →
    List AddedEntry × List UnmatchedEntry × List (String × List String)
  | [] => ([], [], [])
  | g :: rest =>
      let trackUris := g.2.map MatchResult.trackUri
      let trackNames := g.2.map (fun m => m.trackName ++ " - " ++ m.artistNames)
      let r := applyToPlaylists addOutcome rest
      match addOutcome g.1 trackUris with
      | .ok _ =>
          ({ playlistId := g.1
             playlistName := ((g.2.head?).map MatchResult.playlistName).getD ""
             tracks := trackNames } :: r.1,
           r.2.1, (g.1, trackUris) :: r.2.2)
      | .error msg =>
          (r.1,
           (g.2.map (fun m =>
             { trackName := m.trackName
               artistNames := m.artistNames
               reason := msg })) ++ r.2.1,
           (g.1, trackUris) :: r.2.2)

/-- `autoOrganize` after its fetch phase: match, group by playlist, then
either preview (`dryRun = true`) or apply.  The second component is the
trace of `addTracksToPlaylist` calls performed. -/
noncomputable def autoOrganize (enrichedSongs : List TrackWithGenres)
    (playlistProfiles : List PlaylistProfile) (similarityThreshold : ℝ)
    (dryRun : Bool) (addOutcome : String → List String → Except String Unit)
    (fmtBelow : ℝ → ℝ → String) : AutoOrganizeResult × List (String × List String) :=
  let mu := matchSongsToPlaylists enrichedSongs playlistProfiles similarityThreshold fmtBelow
  let byPlaylist := groupByPlaylist mu.1
  if dryRun then
    ({ matches' := mu.1
       added := byPlaylist.map (fun g =>
         { playlistId := g.1
           playlistName := ((g.2.head?).map MatchResult.playlistName).getD ""
           tracks := g.2.map (fun m => m.trackName ++ " - " ++ m.artistNames) })
       unmatched := mu.2
       dryRun := true }, [])
  else
    let r := applyToPlaylists addOutcome byPlaylist
    ({ matches' := mu.1
       added := r.1
       unmatched := mu.2 ++ r.2.1
       dryRun := false }, r.2.2)

/-- The chunking performed by `SpotifyClient.addTracksToPlaylist`: one
POST request per slice of at most 100 track URIs (none when the URI list
is empty). -/
def addTracksToPlaylistChunks (trackUris : List String) : List (List String) :=
  if trackUris.length = 0 then []
  else trackUris.take 100 :: addTracksToPlaylistChunks (trackUris.drop 100)
termination_by trackUris.length
decreasing_by
  simp only [List.length_drop]
  omega

-- ============ BOUNDS OF THE SIMILARITY PRIMITIVES ============

lemma jaccardSimilarity_mem (setA setB : Finset String) :
    0 ≤ jaccardSimilarity setA setB ∧ jaccardSimilarity setA setB ≤ 1 := by
  unfold jaccardSimilarity
  split
  · exact ⟨le_refl 0, zero_le_one⟩
  · refine ⟨by positivity, ?_⟩
    apply div_le_one_of_le₀
    · exact_mod_cast Finset.card_le_card Finset.inter_subset_union
    · positivity

lemma artistOverlapScore_cases (l : List String) (s : Finset String) :
    artistOverlapScore l s = 0 ∨
      ((0.5 : ℝ) ≤ artistOverlapScore l s ∧ artistOverlapScore l s ≤ 1) := by
  simp only [artistOverlapScore]
  split_ifs with h1 h2
  · exact Or.inl rfl
  · refine Or.inr ⟨le_min (by norm_num) ?_, min_le_left _ _⟩
    have hr : (0 : ℝ) ≤ ((l.filter (fun id => id ∈ s)).length : ℝ) / (l.length : ℝ) := by
      positivity
    norm_num
    linarith
  · exact Or.inl rfl

lemma artistOverlapScore_mem (l : List String) (s : Finset String) :
    0 ≤ artistOverlapScore l s ∧ artistOverlapScore l s ≤ 1 := by
  rcases artistOverlapScore_cases l s with h | ⟨h1, h2⟩
  · rw [h]; exact ⟨le_refl 0, zero_le_one⟩
  · exact ⟨by linarith, h2⟩

lemma genreOverlapScore_mem (tg : List String) (pg : Finset String) :
    0 ≤ genreOverlapScore tg pg ∧ genreOverlapScore tg pg ≤ 1 := by
  unfold genreOverlapScore
  split
  · exact ⟨le_refl 0, zero_le_one⟩
  · exact jaccardSimilarity_mem _ _

lemma popularitySimilarity_mem (x y : ℝ) :
    0 ≤ popularitySimilarity x y ∧ popularitySimilarity x y ≤ 1 := by
  unfold popularitySimilarity
  constructor
  · exact le_max_left _ _
  · apply max_le zero_le_one
    have := abs_nonneg (x - y)
    linarith [div_nonneg this (by norm_num : (0:ℝ) ≤ 40)]

lemma weightedGenreScore_nonneg (tg : List String) (pf : List (String × ℕ)) :
    0 ≤ weightedGenreScore tg pf := by
  simp only [weightedGenreScore]
  split_ifs with h1 h2 h3
  · exact le_refl 0
  · exact le_refl 0
  · exact le_refl 0
  · apply mul_nonneg
    · apply div_nonneg _ (by positivity)
      apply List.sum_nonneg
      intro x hx
      obtain ⟨f, _, rfl⟩ := List.mem_map.mp hx
      exact div_nonneg (Nat.cast_nonneg f) (Nat.cast_nonneg _)
    · have hlog : 0 ≤ Real.logb 10
          (((tg.filterMap (lookupFreq pf)).length : ℝ) + 1) := by
        apply Real.logb_nonneg (by norm_num)
        have : (0 : ℝ) ≤ ((tg.filterMap (lookupFreq pf)).length : ℝ) := by positivity
        linarith
      linarith

-- ============ ROUNDING LEMMAS ============

lemma round2_nonneg {x : ℝ} (hx : 0 ≤ x) : 0 ≤ round2 x := by
  unfold round2
  apply div_nonneg _ (by norm_num)
  have : (0 : ℤ) ≤ ⌊x * 100 + 1 / 2⌋ := by
    apply Int.floor_nonneg.mpr
    linarith
  exact_mod_cast this

lemma round2_two_decimals (x : ℝ) : ∃ k : ℤ, round2 x = (k : ℝ) / 100 :=
  ⟨⌊x * 100 + 1 / 2⌋, rfl⟩

-- ============ CLAIM THEOREMS: SCORING ============

/-- C10: for every track artist id list and playlist artist id set,
`artistOverlapScore` returns either exactly `0` or a value in
`[0.5, 1.0]`; it never returns a value in the open interval `(0, 0.5)`. -/
theorem C10_artist_overlap_gap (l : List String) (s : Finset String) :
    artistOverlapScore l s = 0 ∨
      ((0.5 : ℝ) ≤ artistOverlapScore l s ∧ artistOverlapScore l s ≤ 1) :=
  artistOverlapScore_cases l s

/-- C3 (amended): `jaccardSimilarity`, `artistOverlapScore`,
`genreOverlapScore` and `popularitySimilarity` each return a value in
`[0,1]` for every input, and `weightedGenreScore` is always nonnegative —
but `weightedGenreScore` is not bounded by `1` (see the counterexample). -/
theorem C3_primitive_ranges :
    (∀ A B : Finset String, 0 ≤ jaccardSimilarity A B ∧ jaccardSimilarity A B ≤ 1) ∧
    (∀ (l : List String) (s : Finset String),
      0 ≤ artistOverlapScore l s ∧ artistOverlapScore l s ≤ 1) ∧
    (∀ (tg : List String) (pg : Finset String),
      0 ≤ genreOverlapScore tg pg ∧ genreOverlapScore tg pg ≤ 1) ∧
    (∀ x y : ℝ, 0 ≤ popularitySimilarity x y ∧ popularitySimilarity x y ≤ 1) ∧
    (∀ (tg : List String) (pf : List (String × ℕ)), 0 ≤ weightedGenreScore tg pf) :=
  ⟨jaccardSimilarity_mem, artistOverlapScore_mem, genreOverlapScore_mem,
   popularitySimilarity_mem, weightedGenreScore_nonneg⟩

/-- C3 counterexample: `weightedGenreScore` exceeds `1` on a track with a
single genre that is the playlist's (unique, hence maximal-frequency)
genre — the multiple-match bonus `1 + log10(2)/2` pushes the averaged
frequency sum `1` strictly above `1`. -/
theorem C3_counterexample :
    1 < weightedGenreScore ["g1"] [("g1", 1)] := by
  have heval : weightedGenreScore ["g1"] [("g1", 1)] =
      1 / 1 / 1 * (1 + Real.logb 10 2 / 2) := by
    simp [weightedGenreScore, lookupFreq]
    norm_num
  rw [heval]
  have hlog : 0 < Real.logb 10 2 := Real.logb_pos (by norm_num) (by norm_num)
  norm_num
  linarith

/-- C4: the composite score equals `round2` of the weighted sum
`0.35·artistOverlap + 0.25·genreOverlap + 0.25·weightedGenreScore +
0.15·popularitySimilarity` of the *unrounded* primitives, and each
breakdown component is independently `round2` of its unrounded
primitive. -/
theorem C4_composite_formula (t : TrackWithGenres) (p : PlaylistProfile) :
    (calculateMatchScore t p).1 =
      round2 (0.35 * artistOverlapScore t.artistIds p.artistIds +
        0.25 * genreOverlapScore t.genres (genreKeys p.genres) +
        0.25 * weightedGenreScore t.genres p.genres +
        0.15 * popularitySimilarity t.popularity p.avgPopularity) ∧
    (calculateMatchScore t p).2 =
      { artistOverlap := round2 (artistOverlapScore t.artistIds p.artistIds)
        genreOverlap := round2 (genreOverlapScore t.genres (genreKeys p.genres))
        weightedGenreScore := round2 (weightedGenreScore t.genres p.genres)
        popularitySimilarity :=
          round2 (popularitySimilarity t.popularity p.avgPopularity) } := by
  constructor
  · simp only [calculateMatchScore]
    congr 1
    ring
  · rfl

/-- C2 (amended): the composite score is nonnegative and is an integer
multiple of `1/100` (rounded to exactly 2 decimal places), and each of the
four breakdown components is an integer multiple of `1/100` — but the
composite is *not* clamped to `[0,1]`: it can exceed `1` (see the
counterexample). -/
theorem C2_score_rounding (t : TrackWithGenres) (p : PlaylistProfile) :
    0 ≤ (calculateMatchScore t p).1 ∧
    (∃ k : ℤ, (calculateMatchScore t p).1 = (k : ℝ) / 100) ∧
    (∃ k : ℤ, (calculateMatchScore t p).2.artistOverlap = (k : ℝ) / 100) ∧
    (∃ k : ℤ, (calculateMatchScore t p).2.genreOverlap = (k : ℝ) / 100) ∧
    (∃ k : ℤ, (calculateMatchScore t p).2.weightedGenreScore = (k : ℝ) / 100) ∧
    (∃ k : ℤ, (calculateMatchScore t p).2.popularitySimilarity = (k : ℝ) / 100) := by
  refine ⟨?_, round2_two_decimals _, round2_two_decimals _, round2_two_decimals _,
    round2_two_decimals _, round2_two_decimals _⟩
  apply round2_nonneg
  have h1 := artistOverlapScore_mem t.artistIds p.artistIds
  have h2 := genreOverlapScore_mem t.genres (genreKeys p.genres)
  have h3 := weightedGenreScore_nonneg t.genres p.genres
  have h4 := popularitySimilarity_mem t.popularity p.avgPopularity
  have := h1.1; have := h2.1; have := h4.1
  nlinarith [h1.1, h2.1, h3, h4.1]

-- ============ CONCRETE INPUTS FOR THE SCORE COUNTEREXAMPLE ============

/-- A liked track with nine genres, all present in `prof9`. -/
noncomputable def track9 : TrackWithGenres :=
  { id := "t9", uri := "spotify:track:t9", name := "Song9",
    artistIds := ["a1"], artistNames := ["Artist1"],
    genres := ["g1", "g2", "g3", "g4", "g5", "g6", "g7", "g8", "g9"],
    popularity := 50, imageUrl := none }

/-- A playlist profile carrying exactly `track9`'s artist, genres and
popularity. -/
noncomputable def prof9 : PlaylistProfile :=
  { playlistId := "p9", playlistName := "Playlist9",
    trackCount := 9, sampledCount := 9,
    artistIds := {"a1"}, artistNames := {"Artist1"},
    genres := [("g1", 1), ("g2", 1), ("g3", 1), ("g4", 1), ("g5", 1),
               ("g6", 1), ("g7", 1), ("g8", 1), ("g9", 1)],
    avgPopularity := 50 }

lemma jaccardSimilarity_self {A : Finset String} (h : A.Nonempty) :
    jaccardSimilarity A A = 1 := by
  unfold jaccardSimilarity
  have hc : A.card ≠ 0 := Finset.card_ne_zero.mpr h
  rw [if_neg (by simp [hc]), Finset.inter_self, Finset.union_self, div_self]
  exact_mod_cast hc

lemma artistOverlap_eval9 :
    artistOverlapScore track9.artistIds prof9.artistIds = 1 := by
  show artistOverlapScore ["a1"] {"a1"} = 1
  simp only [artistOverlapScore]
  rw [if_neg (by simp), if_pos (by simp)]
  rw [show (["a1"].filter (fun id => id ∈ ({"a1"} : Finset String))) = ["a1"] by simp]
  norm_num

lemma genreOverlap_eval9 :
    genreOverlapScore track9.genres (genreKeys prof9.genres) = 1 := by
  have hk : genreKeys prof9.genres = track9.genres.toFinset := by
    simp [genreKeys, prof9, track9]
  rw [hk]
  simp only [genreOverlapScore]
  rw [if_neg]
  · exact jaccardSimilarity_self ⟨"g1", by simp [track9]⟩
  · simp [track9]

lemma weighted_eval9 :
    weightedGenreScore track9.genres prof9.genres = 3 / 2 := by
  have h1 : track9.genres.length = 9 := rfl
  have h2 : prof9.genres.length = 9 := rfl
  have h3 : (prof9.genres.map Prod.snd).foldl max 0 = 1 := rfl
  have hm : track9.genres.filterMap (lookupFreq prof9.genres) =
      [1, 1, 1, 1, 1, 1, 1, 1, 1] := by decide
  simp only [weightedGenreScore, h1, h2, h3, hm]
  have hlog : Real.logb 10 ((9 : ℝ) + 1) = 1 := by
    norm_num
  norm_num [hlog]

lemma pop_eval9 :
    popularitySimilarity track9.popularity prof9.avgPopularity = 1 := by
  show popularitySimilarity 50 50 = 1
  simp [popularitySimilarity]

lemma calc_eval9 : (calculateMatchScore track9 prof9).1 = 113 / 100 := by
  simp only [calculateMatchScore]
  rw [artistOverlap_eval9, genreOverlap_eval9, weighted_eval9, pop_eval9]
  unfold round2
  norm_num

/-- C2 counterexample: the composite score of `track9` against `prof9` is
`1.13 > 1` — the source rounds but never clamps the composite to
`[0, 1]`. -/
theorem C2_counterexample : 1 < (calculateMatchScore track9 prof9).1 := by
  rw [calc_eval9]
  norm_num

-- ============ MATCHING LOOP LEMMAS ============

lemma findBestMatch_score (song : TrackWithGenres) (th : ℝ) :
    ∀ (rest : List PlaylistProfile) (best : Option (PlaylistProfile × ℝ × Breakdown))
      (b' : PlaylistProfile × ℝ × Breakdown),
      (∀ b, best = some b → th ≤ b.2.1) →
      findBestMatch song th best rest = some b' → th ≤ b'.2.1 := by
  intro rest
  induction rest with
  | nil =>
      intro best b' hbest heq
      exact hbest b' heq
  | cons profile rest ih =>
      intro best b' hbest heq
      simp only [findBestMatch] at heq
      apply ih _ _ _ heq
      intro b hb
      split at hb
      · rename_i hge
        cases best with
        | none =>
            simp only at hb
            cases hb
            exact hge
        | some c =>
            simp only at hb
            split at hb
            · cases hb; exact hge
            · cases hb; exact hbest _ rfl
      · exact hbest b hb

lemma matchLoop_matches_score (profiles : List PlaylistProfile) (th : ℝ)
    (fmt : ℝ → ℝ → String) :
    ∀ (songs : List TrackWithGenres) (mr : MatchResult),
      mr ∈ (matchLoop profiles th fmt songs).1 → th ≤ mr.score := by
  intro songs
  induction songs with
  | nil => intro mr h; simp [matchLoop] at h
  | cons song rest ih =>
      intro mr h
      simp only [matchLoop] at h
      cases hfb : findBestMatch song th none profiles with
      | none => rw [hfb] at h; exact ih mr h
      | some b =>
          rw [hfb] at h
          rcases List.mem_cons.mp h with rfl | h
          · exact findBestMatch_score song th profiles none b (by intro b hb; cases hb) hfb
          · exact ih mr h

lemma insertDesc_mem (x y : MatchResult) :
    ∀ l : List MatchResult, x ∈ insertDesc y l ↔ x = y ∨ x ∈ l := by
  intro l
  induction l with
  | nil => simp [insertDesc]
  | cons z zs ih =>
      simp only [insertDesc]
      split
      · simp [List.mem_cons]
      · simp only [List.mem_cons, ih]
        tauto

lemma sortByScoreDesc_mem (x : MatchResult) (l : List MatchResult) :
    x ∈ sortByScoreDesc l ↔ x ∈ l := by
  unfold sortByScoreDesc
  induction l with
  | nil => simp
  | cons z zs ih => simp [List.foldr_cons, insertDesc_mem, ih]

lemma insertDesc_length (x : MatchResult) (l : List MatchResult) :
    (insertDesc x l).length = l.length + 1 := by
  induction l with
  | nil => rfl
  | cons z zs ih =>
      simp only [insertDesc]
      split
      · rfl
      · simp [ih]

lemma sortByScoreDesc_length (l : List MatchResult) :
    (sortByScoreDesc l).length = l.length := by
  unfold sortByScoreDesc
  induction l with
  | nil => rfl
  | cons z zs ih => simp [List.foldr_cons, insertDesc_length, ih]

lemma matchLoop_length (profiles : List PlaylistProfile) (th : ℝ)
    (fmt : ℝ → ℝ → String) (songs : List TrackWithGenres) :
    (matchLoop profiles th fmt songs).1.length +
      (matchLoop profiles th fmt songs).2.length = songs.length := by
  induction songs with
  | nil => rfl
  | cons song rest ih =>
      simp only [matchLoop]
      cases findBestMatch song th none profiles with
      | none =>
          dsimp only
          simp only [List.length_cons]
          omega
      | some b =>
          dsimp only
          simp only [List.length_cons]
          omega

-- ============ CLAIM THEOREMS: ORCHESTRATION ============

/-- C1 (amended): in `matchSongsToPlaylists` a profile is selected as a
track's match only if its composite score is greater than *or equal to*
the threshold — every returned match's score is `≥` the threshold (the
comparison is inclusive, not strict). -/
theorem C1_threshold_inclusive (songs : List TrackWithGenres)
    (profiles : List PlaylistProfile) (th : ℝ) (fmt : ℝ → ℝ → String)
    (mr : MatchResult) (h : mr ∈ (matchSongsToPlaylists songs profiles th fmt).1) :
    th ≤ mr.score := by
  unfold matchSongsToPlaylists at h
  split at h
  · simp at h
  · exact matchLoop_matches_score profiles th fmt songs mr
      ((sortByScoreDesc_mem mr _).mp h)

-- ============ CONCRETE INPUTS FOR THE THRESHOLD COUNTEREXAMPLE ============

/-- A liked track with one artist and no genre data. -/
noncomputable def trackA : TrackWithGenres :=
  { id := "tA", uri := "spotify:track:tA", name := "SongA",
    artistIds := ["a1"], artistNames := ["ArtistA"],
    genres := [], popularity := 0, imageUrl := none }

/-- A playlist profile containing `trackA`'s artist, no genres, and an
average popularity 40 points away from `trackA`'s. -/
noncomputable def profA : PlaylistProfile :=
  { playlistId := "pA", playlistName := "PlaylistA",
    trackCount := 3, sampledCount := 3,
    artistIds := {"a1"}, artistNames := {"ArtistA"},
    genres := [], avgPopularity := 40 }

/-- Trivial formatter standing in for the "below threshold" reason's
number rendering in concrete scenarios. -/
def fmt0 : ℝ → ℝ → String := fun _ _ => ""

lemma calc_evalA :
    calculateMatchScore trackA profA = (35 / 100, ⟨1, 0, 0, 0⟩) := by
  have ha : artistOverlapScore trackA.artistIds profA.artistIds = 1 := by
    show artistOverlapScore ["a1"] {"a1"} = 1
    simp only [artistOverlapScore]
    rw [if_neg (by simp), if_pos (by simp)]
    rw [show (["a1"].filter (fun id => id ∈ ({"a1"} : Finset String))) = ["a1"] by simp]
    norm_num
  have hg : genreOverlapScore trackA.genres (genreKeys profA.genres) = 0 := by
    simp [genreOverlapScore, trackA]
  have hw : weightedGenreScore trackA.genres profA.genres = 0 := by
    simp [weightedGenreScore, trackA]
  have hp : popularitySimilarity trackA.popularity profA.avgPopularity = 0 := by
    show popularitySimilarity 0 40 = 0
    simp [popularitySimilarity]
  simp only [calculateMatchScore, ha, hg, hw, hp]
  unfold round2
  norm_num

/-- The match result produced for `trackA` against `profA`. -/
noncomputable def mrA : MatchResult :=
  { trackId := "tA", trackUri := "spotify:track:tA", trackName := "SongA",
    artistNames := "ArtistA", trackImageUrl := none, trackGenres := [],
    playlistId := "pA", playlistName := "PlaylistA",
    score := 35 / 100, breakdown := ⟨1, 0, 0, 0⟩ }

lemma match_evalA :
    matchSongsToPlaylists [trackA] [profA] (35 / 100) fmt0 = ([mrA], []) := by
  have hfb : findBestMatch trackA (35 / 100) none [profA] =
      some (profA, 35 / 100, ⟨1, 0, 0, 0⟩) := by
    simp only [findBestMatch, calc_evalA]
    rw [if_pos (le_refl _)]
  unfold matchSongsToPlaylists
  rw [if_neg (by simp)]
  simp only [matchLoop, hfb]
  simp only [sortByScoreDesc, List.foldr_cons, List.foldr_nil, insertDesc]
  simp [mrA, trackA, profA, joinComma, String.intercalate]
  rfl

/-- C1 counterexample: with threshold `0.35`, the pair (`trackA`,
`profA`) scores exactly `0.35` and *is* selected as the track's match —
a score equal to the threshold does count as a match, contradicting the
claimed strict comparison. -/
theorem C1_counterexample :
    (calculateMatchScore trackA profA).1 = 35 / 100 ∧
      (matchSongsToPlaylists [trackA] [profA] (35 / 100) fmt0).1.map
        MatchResult.playlistId = ["pA"] := by
  refine ⟨by rw [calc_evalA], ?_⟩
  rw [match_evalA]
  rfl

/-- C1 witness: the amended theorem applied to the concrete scenario
where `trackA` matches `profA` at exactly the threshold. -/
theorem C1_witness : (35 : ℝ) / 100 ≤ mrA.score :=
  C1_threshold_inclusive [trackA] [profA] (35 / 100) fmt0 mrA
    (by rw [match_evalA]; exact List.mem_singleton.mpr rfl)

/-- C7: with zero usable playlist profiles, `matchSongsToPlaylists`
returns no matches and reports every enriched liked track unmatched with
reason "No playlists available for matching". -/
theorem C7_no_playlists (artists : List SpotifyArtist) (tracks : List SpotifyTrack)
    (th : ℝ) (fmt : ℝ → ℝ → String) :
    matchSongsToPlaylists (enrichTracksWithGenres artists tracks) [] th fmt =
      ([], (enrichTracksWithGenres artists tracks).map (fun s =>
        { trackName := s.name
          artistNames := joinComma s.artistNames
          reason := "No playlists available for matching" })) := by
  simp [matchSongsToPlaylists]

/-- C8: `matchSongsToPlaylists` partitions the fetched liked tracks —
the number of matches plus the number of unmatched entries equals the
number of liked tracks fetched. -/
theorem C8_partition (artists : List SpotifyArtist) (tracks : List SpotifyTrack)
    (profiles : List PlaylistProfile) (th : ℝ) (fmt : ℝ → ℝ → String) :
    (matchSongsToPlaylists (enrichTracksWithGenres artists tracks) profiles th fmt).1.length +
      (matchSongsToPlaylists (enrichTracksWithGenres artists tracks) profiles th fmt).2.length =
      tracks.length := by
  have hlen : (enrichTracksWithGenres artists tracks).length = tracks.length :=
    List.length_map _ _
  unfold matchSongsToPlaylists
  split
  · simpa using hlen
  · rw [sortByScoreDesc_length]
    rw [matchLoop_length]
    exact hlen

/-- C9: whenever `buildPlaylistProfile` succeeds, the "has no tracks"
error was not raised, so the profile was built from at least one sampled
track — `sampledCount ≥ 1` equals the track count used as the
`avgPopularity` divisor, which is therefore nonzero. -/
theorem C9_build_profile_division (pid : String) (meta : PlaylistMeta)
    (tracks : List SpotifyTrack) (artists : List SpotifyArtist)
    (p : PlaylistProfile)
    (h : buildPlaylistProfile pid meta tracks artists = .ok p) :
    1 ≤ p.sampledCount ∧ p.sampledCount = tracks.length := by
  unfold buildPlaylistProfile at h
  split at h
  · cases h
  · rename_i hlen
    cases h
    have he : (enrichTracksWithGenres artists tracks).length = tracks.length :=
      List.length_map _ _
    simp only [he, and_true]
    omega

/-- A one-track sample used to exercise `buildPlaylistProfile`. -/
noncomputable def trkX : SpotifyTrack :=
  { id := "tX", name := "SongX", uri := "spotify:track:tX",
    artists := [⟨"a1", "ArtistX"⟩], popularity := some 50, imageUrl := none }

/-- The profile `buildPlaylistProfile` produces for `[trkX]`. -/
noncomputable def profX : PlaylistProfile :=
  { playlistId := "pX", playlistName := "PX",
    trackCount := 1, sampledCount := 1,
    artistIds := {"a1"}, artistNames := {"ArtistX"},
    genres := [], avgPopularity := 50 / 1 }

lemma build_evalX :
    buildPlaylistProfile "pX" ⟨"PX", 1⟩ [trkX] [] = .ok profX := by
  unfold buildPlaylistProfile
  rw [if_neg (by simp)]
  simp [enrichTracksWithGenres, jsDedup, trkX, profX]

/-- C9 witness: the theorem applied to a concrete successful build from a
one-track sample. -/
theorem C9_witness : 1 ≤ profX.sampledCount ∧ profX.sampledCount = [trkX].length :=
  C9_build_profile_division "pX" ⟨"PX", 1⟩ [trkX] [] profX build_evalX

-- ============ GROUPING AND APPLY-LOOP LEMMAS ============

lemma autoOrganize_dryRun_trace (enriched : List TrackWithGenres)
    (profiles : List PlaylistProfile) (th : ℝ)
    (out : String → List String → Except String Unit) (fmt : ℝ → ℝ → String) :
    (autoOrganize enriched profiles th true out fmt).2 = [] := by
  simp [autoOrganize]

lemma autoOrganize_apply (enriched : List TrackWithGenres)
    (profiles : List PlaylistProfile) (th : ℝ)
    (out : String → List String → Except String Unit) (fmt : ℝ → ℝ → String) :
    (autoOrganize enriched profiles th false out fmt).1.added =
      (applyToPlaylists out
        (groupByPlaylist (matchSongsToPlaylists enriched profiles th fmt).1)).1 ∧
    (autoOrganize enriched profiles th false out fmt).1.unmatched =
      (matchSongsToPlaylists enriched profiles th fmt).2 ++
        (applyToPlaylists out
          (groupByPlaylist (matchSongsToPlaylists enriched profiles th fmt).1)).2.1 ∧
    (autoOrganize enriched profiles th false out fmt).2 =
      (applyToPlaylists out
        (groupByPlaylist (matchSongsToPlaylists enriched profiles th fmt).1)).2.2 := by
  simp [autoOrganize]

lemma applyToPlaylists_calls (out : String → List String → Except String Unit) :
    ∀ gs : List (String × List MatchResult),
      (applyToPlaylists out gs).2.2 =
        gs.map (fun g => (g.1, g.2.map MatchResult.trackUri)) := by
  intro gs
  induction gs with
  | nil => rfl
  | cons g rest ih =>
      cases h : out g.1 (g.2.map MatchResult.trackUri) with
      | ok u => simp [applyToPlaylists, h, ih]
      | error e => simp [applyToPlaylists, h, ih]

lemma updateGroup_keys (m : MatchResult) :
    ∀ gs : List (String × List MatchResult),
      (updateGroup m gs).map Prod.fst =
        if m.playlistId ∈ gs.map Prod.fst then gs.map Prod.fst
        else gs.map Prod.fst ++ [m.playlistId] := by
  intro gs
  induction gs with
  | nil => simp [updateGroup]
  | cons g rest ih =>
      obtain ⟨k, ms⟩ := g
      simp only [updateGroup, List.map_cons, List.mem_cons]
      by_cases hk : k = m.playlistId
      · rw [if_pos hk, if_pos (Or.inl hk.symm)]
        simp
      · rw [if_neg hk, List.map_cons, ih]
        by_cases hmem : m.playlistId ∈ rest.map Prod.fst
        · rw [if_pos hmem, if_pos (Or.inr hmem)]
        · rw [if_neg hmem, if_neg (by
            intro h
            rcases h with h | h
            · exact hk h.symm
            · exact hmem h)]
          simp

lemma foldl_groups_keys :
    ∀ (ms : List MatchResult) (acc : List (String × List MatchResult)),
      (List.foldl (fun a m => updateGroup m a) acc ms).map Prod.fst =
        List.foldl (fun a x => if x ∈ a then a else a ++ [x]) (acc.map Prod.fst)
          (ms.map MatchResult.playlistId) := by
  intro ms
  induction ms with
  | nil => intro acc; rfl
  | cons m rest ih =>
      intro acc
      simp only [List.foldl_cons, List.map_cons]
      rw [ih, updateGroup_keys]

lemma groupByPlaylist_keys (ms : List MatchResult) :
    (groupByPlaylist ms).map Prod.fst = jsDedup (ms.map MatchResult.playlistId) :=
  foldl_groups_keys ms []

lemma dedup_foldl_nodup :
    ∀ (l : List String) (acc : List String), acc.Nodup →
      (List.foldl (fun a x => if x ∈ a then a else a ++ [x]) acc l).Nodup := by
  intro l
  induction l with
  | nil => intro acc h; exact h
  | cons x xs ih =>
      intro acc h
      simp only [List.foldl_cons]
      apply ih
      split
      · exact h
      · rename_i hx
        simp [List.nodup_append, h, hx]

lemma jsDedup_nodup (l : List String) : (jsDedup l).Nodup :=
  dedup_foldl_nodup l [] List.nodup_nil

lemma updateGroup_vals_nonempty (m : MatchResult) :
    ∀ gs : List (String × List MatchResult), (∀ g ∈ gs, g.2 ≠ []) →
      ∀ g ∈ updateGroup m gs, g.2 ≠ [] := by
  intro gs
  induction gs with
  | nil =>
      intro _ g hg
      simp only [updateGroup, List.mem_singleton] at hg
      subst hg
      simp
  | cons g0 rest ih =>
      obtain ⟨k, ms⟩ := g0
      intro h g hg
      simp only [updateGroup] at hg
      split at hg
      · rcases List.mem_cons.mp hg with rfl | hg
        · simp
        · exact h g (List.mem_cons_of_mem _ hg)
      · rcases List.mem_cons.mp hg with rfl | hg
        · exact h (k, ms) (List.mem_cons_self _ _)
        · exact ih (fun g' hg' => h g' (List.mem_cons_of_mem _ hg')) g hg

lemma groupByPlaylist_nonempty (ms : List MatchResult) :
    ∀ g ∈ groupByPlaylist ms, g.2 ≠ [] := by
  suffices h : ∀ (ms : List MatchResult) (acc : List (String × List MatchResult)),
      (∀ g ∈ acc, g.2 ≠ []) →
      ∀ g ∈ List.foldl (fun a m => updateGroup m a) acc ms, g.2 ≠ [] by
    exact h ms [] (by simp)
  intro ms
  induction ms with
  | nil => intro acc h; exact h
  | cons m rest ih =>
      intro acc h
      simp only [List.foldl_cons]
      exact ih _ (updateGroup_vals_nonempty m acc h)

lemma applyToPlaylists_congr (out out' : String → List String → Except String Unit) :
    ∀ gs : List (String × List MatchResult),
      (∀ g ∈ gs, out g.1 (g.2.map MatchResult.trackUri) =
        out' g.1 (g.2.map MatchResult.trackUri)) →
      applyToPlaylists out gs = applyToPlaylists out' gs := by
  intro gs
  induction gs with
  | nil => intro _; rfl
  | cons g rest ih =>
      intro h
      have hg := h g (List.mem_cons_self _ _)
      have hrest := ih (fun g' hg' => h g' (List.mem_cons_of_mem _ hg'))
      cases hout : out g.1 (g.2.map MatchResult.trackUri) with
      | ok u => simp [applyToPlaylists, hout, hg ▸ hout, ← hg, hrest]
      | error e => simp [applyToPlaylists, hout, ← hg, hrest]

lemma applyToPlaylists_append (out : String → List String → Except String Unit)
    (xs ys : List (String × List MatchResult)) :
    applyToPlaylists out (xs ++ ys) =
      ((applyToPlaylists out xs).1 ++ (applyToPlaylists out ys).1,
       (applyToPlaylists out xs).2.1 ++ (applyToPlaylists out ys).2.1,
       (applyToPlaylists out xs).2.2 ++ (applyToPlaylists out ys).2.2) := by
  induction xs with
  | nil => simp [applyToPlaylists]
  | cons g rest ih =>
      cases hout : out g.1 (g.2.map MatchResult.trackUri) with
      | ok u => simp [applyToPlaylists, hout, ih]
      | error e => simp [applyToPlaylists, hout, ih]

lemma applyToPlaylists_added_keys (out : String → List String → Except String Unit) :
    ∀ gs : List (String × List MatchResult),
      ∀ e ∈ (applyToPlaylists out gs).1, e.playlistId ∈ gs.map Prod.fst := by
  intro gs
  induction gs with
  | nil => intro e he; simp [applyToPlaylists] at he
  | cons g rest ih =>
      intro e he
      cases hout : out g.1 (g.2.map MatchResult.trackUri) with
      | ok u =>
          rw [applyToPlaylists] at he
          rw [hout] at he
          rcases List.mem_cons.mp he with rfl | he
          · exact List.mem_cons_self _ _
          · exact List.mem_cons_of_mem _ (ih e he)
      | error e' =>
          rw [applyToPlaylists] at he
          rw [hout] at he
          exact List.mem_cons_of_mem _ (ih e he)

-- ============ CHUNKING LEMMAS ============

lemma chunks_flatten (l : List String) :
    (addTracksToPlaylistChunks l).flatten = l := by
  induction l using addTracksToPlaylistChunks.induct with
  | case1 l hl =>
      rw [addTracksToPlaylistChunks, if_pos hl]
      simp [List.length_eq_zero.mp hl]
  | case2 l hl ih =>
      rw [addTracksToPlaylistChunks, if_neg hl]
      simp [ih]

lemma chunks_length (l : List String) :
    (addTracksToPlaylistChunks l).length = (l.length + 99) / 100 := by
  induction l using addTracksToPlaylistChunks.induct with
  | case1 l hl =>
      rw [addTracksToPlaylistChunks, if_pos hl]
      simp only [List.length_nil]
      omega
  | case2 l hl ih =>
      rw [addTracksToPlaylistChunks, if_neg hl]
      simp only [List.length_cons, ih, List.length_drop]
      omega

lemma chunks_mem (l : List String) :
    ∀ ch ∈ addTracksToPlaylistChunks l, ch.length ≤ 100 ∧ ch ≠ [] := by
  induction l using addTracksToPlaylistChunks.induct with
  | case1 l hl =>
      rw [addTracksToPlaylistChunks, if_pos hl]
      intro ch hch
      simp at hch
  | case2 l hl ih =>
      rw [addTracksToPlaylistChunks, if_neg hl]
      intro ch hch
      rcases List.mem_cons.mp hch with rfl | hch
      · constructor
        · simp [List.length_take]
        · simp only [ne_eq, List.take_eq_nil_iff]
          push_neg
          exact ⟨by omega, fun h => hl (by simp [h])⟩
      · exact ih ch hch

/-- C6: `autoOrganize` in preview mode performs no add-to-playlist call;
in apply mode it performs exactly one `addTracksToPlaylist` call per
destination playlist that has at least one match (each with that
playlist's nonempty URI list) and none for any other playlist; and each
such call issues one POST per chunk of at most 100 track URIs, the chunks
exactly covering the URI list. -/
theorem C6_add_call_discipline (enriched : List TrackWithGenres)
    (profiles : List PlaylistProfile) (th : ℝ)
    (addOutcome : String → List String → Except String Unit)
    (fmt : ℝ → ℝ → String) :
    (autoOrganize enriched profiles th true addOutcome fmt).2 = [] ∧
    (autoOrganize enriched profiles th false addOutcome fmt).2.map Prod.fst =
      jsDedup ((matchSongsToPlaylists enriched profiles th fmt).1.map
        MatchResult.playlistId) ∧
    (∀ c ∈ (autoOrganize enriched profiles th false addOutcome fmt).2, c.2 ≠ []) ∧
    (∀ uris : List String, uris ≠ [] →
      (addTracksToPlaylistChunks uris).length = (uris.length + 99) / 100 ∧
      (addTracksToPlaylistChunks uris).flatten = uris ∧
      ∀ ch ∈ addTracksToPlaylistChunks uris, ch.length ≤ 100 ∧ ch ≠ []) := by
  refine ⟨autoOrganize_dryRun_trace enriched profiles th addOutcome fmt, ?_, ?_, ?_⟩
  · rw [(autoOrganize_apply enriched profiles th addOutcome fmt).2.2,
      applyToPlaylists_calls, ← groupByPlaylist_keys]
    simp [List.map_map, Function.comp]
  · intro c hc
    rw [(autoOrganize_apply enriched profiles th addOutcome fmt).2.2,
      applyToPlaylists_calls] at hc
    obtain ⟨g, hgmem, rfl⟩ := List.mem_map.mp hc
    have hne := groupByPlaylist_nonempty _ g hgmem
    simpa using hne
  · intro uris _
    exact ⟨chunks_length uris, chunks_flatten uris, chunks_mem uris⟩

/-- The unmatched entry pushed for a match `m` when its destination
playlist's bulk add fails with message `msg`. -/
noncomputable def failEntry (msg : String) (m : MatchResult) : UnmatchedEntry :=
  { trackName := m.trackName, artistNames := m.artistNames, reason := msg }

/-- The added entry recorded for destination `pid` with group `pms` when
its bulk add succeeds. -/
noncomputable def addedEntryFor (pid : String) (pms : List MatchResult) : AddedEntry :=
  { playlistId := pid
    playlistName := ((pms.head?).map MatchResult.playlistName).getD ""
    tracks := pms.map (fun m => m.trackName ++ " - " ++ m.artistNames) }

/-- C5: in apply mode, when the bulk add for one destination playlist
fails with message `msg`, every match destined for that playlist becomes
an unmatched entry with reason `msg`, that playlist contributes no added
entry, and the added and unmatched entries for all other playlists are
exactly those of the run in which that playlist's add succeeds (partial
success, no rollback). -/
theorem C5_partial_failure (enriched : List TrackWithGenres)
    (profiles : List PlaylistProfile) (th : ℝ) (fmt : ℝ → ℝ → String)
    (addOutcome : String → List String → Except String Unit)
    (pid : String) (pms : List MatchResult) (msg : String)
    (hg : (pid, pms) ∈ groupByPlaylist (matchSongsToPlaylists enriched profiles th fmt).1)
    (herr : addOutcome pid (pms.map MatchResult.trackUri) = .error msg) :
    (∀ m ∈ pms, failEntry msg m ∈
        (autoOrganize enriched profiles th false addOutcome fmt).1.unmatched) ∧
    pid ∉ (autoOrganize enriched profiles th false addOutcome fmt).1.added.map
        AddedEntry.playlistId ∧
    (∃ l1 l2,
      (autoOrganize enriched profiles th false addOutcome fmt).1.unmatched =
        l1 ++ pms.map (failEntry msg) ++ l2 ∧
      (autoOrganize enriched profiles th false
        (fun q u => if q = pid then Except.ok () else addOutcome q u)
        fmt).1.unmatched = l1 ++ l2) ∧
    (∃ (e : AddedEntry) (a1 a2 : List AddedEntry), e.playlistId = pid ∧
      (autoOrganize enriched profiles th false
        (fun q u => if q = pid then Except.ok () else addOutcome q u)
        fmt).1.added = a1 ++ e :: a2 ∧
      (autoOrganize enriched profiles th false addOutcome fmt).1.added = a1 ++ a2) := by
  obtain ⟨gs1, gs2, hsplit⟩ := List.append_of_mem hg
  have hnd : ((groupByPlaylist
      (matchSongsToPlaylists enriched profiles th fmt).1).map Prod.fst).Nodup := by
    rw [groupByPlaylist_keys]
    exact jsDedup_nodup _
  rw [hsplit] at hnd
  rw [show (gs1 ++ (pid, pms) :: gs2).map Prod.fst =
    gs1.map Prod.fst ++ pid :: gs2.map Prod.fst by simp] at hnd
  rw [List.nodup_append] at hnd
  have h1 : pid ∉ gs1.map Prod.fst := fun hmem =>
    hnd.2.2 hmem (List.mem_cons_self pid _)
  have h2 : pid ∉ gs2.map Prod.fst := (List.nodup_cons.mp hnd.2.1).1
  have hagree1 : ∀ g ∈ gs1, addOutcome g.1 (g.2.map MatchResult.trackUri) =
      (fun q u => if q = pid then Except.ok () else addOutcome q u) g.1
        (g.2.map MatchResult.trackUri) := by
    intro g hgmem
    have hne : g.1 ≠ pid := fun he => h1 (he ▸ List.mem_map_of_mem Prod.fst hgmem)
    simp [hne]
  have hagree2 : ∀ g ∈ gs2, addOutcome g.1 (g.2.map MatchResult.trackUri) =
      (fun q u => if q = pid then Except.ok () else addOutcome q u) g.1
        (g.2.map MatchResult.trackUri) := by
    intro g hgmem
    have hne : g.1 ≠ pid := fun he => h2 (he ▸ List.mem_map_of_mem Prod.fst hgmem)
    simp [hne]
  have hc1 := applyToPlaylists_congr addOutcome
    (fun q u => if q = pid then Except.ok () else addOutcome q u) gs1 hagree1
  have hc2 := applyToPlaylists_congr addOutcome
    (fun q u => if q = pid then Except.ok () else addOutcome q u) gs2 hagree2
  have hok : (fun q u => if q = pid then Except.ok () else addOutcome q u) pid
      (pms.map MatchResult.trackUri) = Except.ok () := by simp
  have hstep : applyToPlaylists addOutcome ((pid, pms) :: gs2) =
      ((applyToPlaylists addOutcome gs2).1,
       pms.map (failEntry msg) ++ (applyToPlaylists addOutcome gs2).2.1,
       (pid, pms.map MatchResult.trackUri) ::
         (applyToPlaylists addOutcome gs2).2.2) := by
    rw [applyToPlaylists]
    simp [herr, failEntry]
  have hstep2 : applyToPlaylists
      (fun q u => if q = pid then Except.ok () else addOutcome q u)
      ((pid, pms) :: gs2) =
      (addedEntryFor pid pms ::
         (applyToPlaylists addOutcome gs2).1,
       (applyToPlaylists addOutcome gs2).2.1,
       (pid, pms.map MatchResult.trackUri) ::
         (applyToPlaylists addOutcome gs2).2.2) := by
    rw [applyToPlaylists]
    simp [addedEntryFor, ← hc2]
  have hadded : (autoOrganize enriched profiles th false addOutcome fmt).1.added =
      (applyToPlaylists addOutcome gs1).1 ++ (applyToPlaylists addOutcome gs2).1 := by
    rw [(autoOrganize_apply enriched profiles th addOutcome fmt).1, hsplit,
      applyToPlaylists_append, hstep]
  have hunm : (autoOrganize enriched profiles th false addOutcome fmt).1.unmatched =
      ((matchSongsToPlaylists enriched profiles th fmt).2 ++
        (applyToPlaylists addOutcome gs1).2.1) ++
        pms.map (failEntry msg) ++ (applyToPlaylists addOutcome gs2).2.1 := by
    rw [(autoOrganize_apply enriched profiles th addOutcome fmt).2.1, hsplit,
      applyToPlaylists_append, hstep]
    simp [List.append_assoc]
  have hadded2 : (autoOrganize enriched profiles th false
      (fun q u => if q = pid then Except.ok () else addOutcome q u) fmt).1.added =
      (applyToPlaylists addOutcome gs1).1 ++
        (addedEntryFor pid pms :: (applyToPlaylists addOutcome gs2).1) := by
    rw [(autoOrganize_apply enriched profiles th _ fmt).1, hsplit,
      applyToPlaylists_append, hstep2, ← hc1]
  have hunm2 : (autoOrganize enriched profiles th false
      (fun q u => if q = pid then Except.ok () else addOutcome q u) fmt).1.unmatched =
      ((matchSongsToPlaylists enriched profiles th fmt).2 ++
        (applyToPlaylists addOutcome gs1).2.1) ++
        (applyToPlaylists addOutcome gs2).2.1 := by
    rw [(autoOrganize_apply enriched profiles th _ fmt).2.1, hsplit,
      applyToPlaylists_append, hstep2, ← hc1]
    simp [List.append_assoc]
  refine ⟨?_, ?_, ?_, ?_⟩
  · intro m hm
    rw [hunm]
    refine List.mem_append.mpr (Or.inl (List.mem_append.mpr (Or.inr ?_)))
    exact List.mem_map_of_mem _ hm
  · rw [hadded]
    intro hmem
    obtain ⟨e, he, hepid⟩ := List.mem_map.mp hmem
    rcases List.mem_append.mp he with he1 | he2
    · exact h1 (hepid ▸ applyToPlaylists_added_keys addOutcome gs1 e he1)
    · exact h2 (hepid ▸ applyToPlaylists_added_keys addOutcome gs2 e he2)
  · exact ⟨(matchSongsToPlaylists enriched profiles th fmt).2 ++
      (applyToPlaylists addOutcome gs1).2.1,
      (applyToPlaylists addOutcome gs2).2.1, hunm, hunm2⟩
  · exact ⟨addedEntryFor pid pms,
      (applyToPlaylists addOutcome gs1).1, (applyToPlaylists addOutcome gs2).1,
      rfl, hadded2, hadded⟩

/-- C5 witness: the theorem applied to the concrete scenario where the
destination of `trackA`'s match rejects the bulk add with "boom". -/
theorem C5_witness :
    failEntry "boom" mrA ∈
      (autoOrganize [trackA] [profA] (35 / 100) false
        (fun _ _ => Except.error "boom") fmt0).1.unmatched ∧
    "pA" ∉ (autoOrganize [trackA] [profA] (35 / 100) false
        (fun _ _ => Except.error "boom") fmt0).1.added.map AddedEntry.playlistId := by
  have hg : ("pA", [mrA]) ∈ groupByPlaylist
      (matchSongsToPlaylists [trackA] [profA] (35 / 100) fmt0).1 := by
    rw [match_evalA]
    simp [groupByPlaylist, updateGroup, mrA]
  have h := C5_partial_failure [trackA] [profA] (35 / 100) fmt0
    (fun _ _ => Except.error "boom") "pA" [mrA] "boom" hg rfl
  exact ⟨h.1 mrA (List.mem_singleton.mpr rfl), h.2.1⟩

/-- C6 witness: the theorem applied to the concrete one-match scenario —
no call in preview mode, exactly the one call for `profA` in apply mode,
and a single chunk for a one-URI list. -/
theorem C6_witness :
    (autoOrganize [trackA] [profA] (35 / 100) true
      (fun _ _ => Except.ok ()) fmt0).2 = [] ∧
    (autoOrganize [trackA] [profA] (35 / 100) false
      (fun _ _ => Except.ok ()) fmt0).2.map Prod.fst = ["pA"] ∧
    (addTracksToPlaylistChunks ["spotify:track:tA"]).length = 1 := by
  obtain ⟨h1, h2, _, h4⟩ :=
    C6_add_call_discipline [trackA] [profA] (35 / 100) (fun _ _ => Except.ok ()) fmt0
  refine ⟨h1, ?_, ?_⟩
  · rw [h2, match_evalA]
    simp [jsDedup, mrA]
  · have h := (h4 ["spotify:track:tA"] (by simp)).1
    simpa using h

end PlaylistMatcher
